import Mathlib

/-!
Verification of the screenshot service (Express HTTP handler in the entry
module, capture functions in `src/screenshot.ts`, auth client config in
`src/config/clerk.ts`) against its natural-language specification.

The embedding models:
- JSON request values and JavaScript truthiness, as used by the handler;
- option destructuring with defaults, exactly as in the two capture
  functions;
- the shared headless browser handle (`let browser: Browser | null`) as a
  state of optional browser ids plus a fresh-id counter;
- the two capture functions as functions from an environment describing the
  outcomes of the browser-engine calls (navigation, element lookup,
  visibility waits, screenshot calls) to a result, the updated shared state
  and a trace of engine events (HTML-document synthesis and logging are not
  modelled: no claim depends on the synthesized text);
- the `POST /screenshot` handler over such bodies and environments;
- the module import graph of the entry file, for the startup claim.
-/

namespace ReviewMaker

/-- JSON values as delivered by `express.json()` to `req.body` fields.
Numbers are modelled as integers; no claim depends on fractional values. -/
inductive Json where
  | null
  | bool (b : Bool)
  | num (n : Int)
  | str (s : String)
  | arr (size : Nat)
  | obj (size : Nat)

/-- JavaScript truthiness of a JSON value: `null`, `false`, `0` and `""` are
falsy; arrays and objects are always truthy. -/
def jsonTruthy : Json → Bool
  | Json.null => false
  | Json.bool b => b
  | Json.num n => n != 0
  | Json.str s => !s.isEmpty
  | Json.arr _ => true
  | Json.obj _ => true

/-- `typeof v === "string"`. -/
def jsonIsString : Json → Bool
  | Json.str _ => true
  | _ => false

/-- Truthiness of a possibly-absent body field (`undefined` is falsy). -/
def optTruthy : Option Json → Bool
  | none => false
  | some j => jsonTruthy j

/-- The `type` option: `"png" | "jpeg"`. -/
inductive ImgType where
  | png
  | jpeg
deriving DecidableEq

/-- The `waitUntil` option of `page.goto` / `page.setContent`. -/
inductive WaitUntil where
  | load
  | domcontentloaded
  | networkidle
  | commit
deriving DecidableEq

/-- `ScreenshotRequestOptions` from `src/screenshot.ts`: every field is
optional; defaults are applied by destructuring inside the capture
functions, not here. -/
structure ScreenshotRequestOptions where
  width : Option Nat := none
  height : Option Nat := none
  fullPage : Option Bool := none
  selector : Option String := none
  selectorTimeout : Option Nat := none
  waitUntil : Option WaitUntil := none
  timeout : Option Nat := none
  quality : Option Nat := none
  type : Option ImgType := none
  deviceScaleFactor : Option Nat := none
  transparent : Option Bool := none
  headless : Option Bool := none
deriving DecidableEq

/-- The module-level `let browser: Browser | null = null` together with a
fresh-id supply for newly launched browser instances. -/
structure BrowserState where
  shared : Option Nat
  nextId : Nat
deriving DecidableEq

/-- Well-formedness: any stored shared browser id was minted earlier than
the next fresh id, so fresh launches are distinct from it. -/
def BrowserState.wf (st : BrowserState) : Bool :=
  match st.shared with
  | none => true
  | some b => b < st.nextId

/-- Options passed to `page.screenshot` / `element.screenshot`. -/
structure ShotOpts where
  stype : ImgType
  quality : Option Nat
  fullPage : Option Bool
  omitBackground : Option Bool
deriving DecidableEq

/-- How a returned buffer was produced. -/
inductive ShotKind where
  | element
  | page
deriving DecidableEq

/-- The bytes returned by a capture: tagged with the screenshot call that
produced them, so the effective encoding of the bytes is `opts.stype`. -/
structure Buffer where
  kind : ShotKind
  opts : ShotOpts
deriving DecidableEq

/-- The effective image encoding of the returned bytes. -/
def Buffer.effectiveType (b : Buffer) : ImgType :=
  b.opts.stype

/-- Observable browser-engine calls made by the capture functions. -/
inductive Event where
  | launch (headless : Bool) (id : Nat)
  | newContext (width height scale : Nat)
  | newPage
  | goto (url : String) (w : WaitUntil) (timeout : Nat)
  | addStyleTag
  | setContent (w : WaitUntil) (timeout : Nat)
  | waitForVisible (selector : String) (timeout : Nat)
  | evalAncestorTransparency (selector : String)
  | elementShot (o : ShotOpts)
  | pageShot (o : ShotOpts)
  | closePage
  | closeContext
  | closeBrowser (id : Nat)
deriving DecidableEq

/-- `getBrowser(headless)`: debug mode launches a fresh visible instance and
never touches the shared handle; headless mode lazily initializes the shared
handle and returns it thereafter. Returns the acquired instance id, the
updated state and the launch events. -/
def getBrowser (headless : Bool) (st : BrowserState) :
    Nat × BrowserState × List Event :=
  if headless = false then
    (st.nextId, ⟨st.shared, st.nextId + 1⟩, [Event.launch false st.nextId])
  else
    match st.shared with
    | some b => (b, st, [])
    | none =>
      (st.nextId, ⟨some st.nextId, st.nextId + 1⟩, [Event.launch true st.nextId])

/-- The option values after the destructuring-with-defaults at the top of
`takeScreenshot` (URL mode). -/
structure ResolvedUrlOptions where
  width : Nat
  height : Nat
  fullPage : Bool
  selector : String
  selectorTimeout : Option Nat
  waitUntil : WaitUntil
  timeout : Nat
  quality : Nat
  type : ImgType
  deviceScaleFactor : Nat
  transparent : Bool
  headless : Bool
deriving DecidableEq

/-- Defaults of `takeScreenshot`: 1920x1080, `fullPage=false`,
`selector="#review-card"`, `waitUntil="networkidle"`, `timeout=30000`,
`quality=100`, `type="png"`, `deviceScaleFactor=2`, `transparent=true`,
`headless=true`; `selectorTimeout` has no default. -/
def resolveUrlOptions (o : ScreenshotRequestOptions) : ResolvedUrlOptions :=
  { width := o.width.getD 1920
    height := o.height.getD 1080
    fullPage := o.fullPage.getD false
    selector := o.selector.getD "#review-card"
    selectorTimeout := o.selectorTimeout
    waitUntil := o.waitUntil.getD WaitUntil.networkidle
    timeout := o.timeout.getD 30000
    quality := o.quality.getD 100
    type := o.type.getD ImgType.png
    deviceScaleFactor := o.deviceScaleFactor.getD 2
    transparent := o.transparent.getD true
    headless := o.headless.getD true }

/-- The option values after the destructuring-with-defaults at the top of
`takeScreenshotFromHtml` (HTML mode): no selector-related options there. -/
structure ResolvedHtmlOptions where
  width : Nat
  height : Nat
  fullPage : Bool
  timeout : Nat
  quality : Nat
  type : ImgType
  deviceScaleFactor : Nat
  transparent : Bool
  headless : Bool
deriving DecidableEq

/-- Defaults of `takeScreenshotFromHtml`, identical to URL mode for the
fields it destructures. -/
def resolveHtmlOptions (o : ScreenshotRequestOptions) : ResolvedHtmlOptions :=
  { width := o.width.getD 1920
    height := o.height.getD 1080
    fullPage := o.fullPage.getD false
    timeout := o.timeout.getD 30000
    quality := o.quality.getD 100
    type := o.type.getD ImgType.png
    deviceScaleFactor := o.deviceScaleFactor.getD 2
    transparent := o.transparent.getD true
    headless := o.headless.getD true }

/-- Errors thrown out of the capture functions (those not caught by the
element-fallback `catch` in URL mode). -/
inductive CaptureError where
  | navigationFailed
  | setContentFailed
  | elementWaitFailed
  | elementShotFailed
  | pageShotFailed
deriving DecidableEq

/-- The `.message` of the underlying engine error, as surfaced by the HTTP
handler's 500 body. The exact text comes from the engine and is not pinned
down by any claim. -/
def CaptureError.message : CaptureError → String
  | CaptureError.navigationFailed => "Navigation failed"
  | CaptureError.setContentFailed => "Set content failed"
  | CaptureError.elementWaitFailed => "Timeout waiting for element to be visible"
  | CaptureError.elementShotFailed => "Element screenshot failed"
  | CaptureError.pageShotFailed => "Page screenshot failed"

/-- Outcomes of the engine calls made on the URL-mode path: whether
navigation fails, how many DOM nodes match the selector, whether the
visibility wait succeeds within its timeout, whether the element is still
visible afterwards, and whether the two screenshot calls fail. -/
structure UrlEnv where
  gotoFails : Bool
  elementCount : Nat
  waitVisibleOk : Bool
  stillVisible : Bool
  elementShotFails : Bool
  pageShotFails : Bool
deriving DecidableEq

/-- Outcomes of the engine calls made on the HTML-mode path. -/
structure HtmlEnv where
  setContentFails : Bool
  cardVisibleOk : Bool
  elementShotFails : Bool
deriving DecidableEq

/-- JavaScript truthiness of a string (`if (selector)`). -/
def strTruthy (s : String) : Bool :=
  !s.isEmpty

/-- The timeout passed to `element.waitFor` in URL mode:
`typeof selectorTimeout === "number" ? selectorTimeout : Math.min(timeout, 10000)`. -/
def selectorWaitTimeout (selTimeout : Option Nat) (timeout : Nat) : Nat :=
  match selTimeout with
  | some n => n
  | none => min timeout 10000

/-- The screenshot options built at each capture call site:
`quality` is forwarded only when the effective type is jpeg, and
`omitBackground` is set from `transparent`. -/
def shotOptsFor (stype : ImgType) (quality : Nat) (fullPage : Option Bool)
    (transparent : Bool) : ShotOpts :=
  { stype := stype
    quality := if stype = ImgType.jpeg then some quality else none
    fullPage := fullPage
    omitBackground := some transparent }

/-- The guarded element-screenshot attempt inside `takeScreenshot`'s inner
`try`: missing element, failed visibility wait, non-visible element or a
failing element screenshot all end the attempt with `none` (the thrown error
is caught by the surrounding `catch`, which only logs). -/
def tryElementShot (r : ResolvedUrlOptions) (stype : ImgType) (env : UrlEnv) :
    Option Buffer × List Event :=
  if env.elementCount = 0 then
    (none, [])
  else
    let wt := selectorWaitTimeout r.selectorTimeout r.timeout
    if env.waitVisibleOk = false then
      (none, [Event.waitForVisible r.selector wt])
    else if env.stillVisible = false then
      (none, [Event.waitForVisible r.selector wt])
    else
      let tEvs := if r.transparent then [Event.evalAncestorTransparency r.selector] else []
      let o := shotOptsFor stype r.quality none r.transparent
      if env.elementShotFails then
        (none, Event.waitForVisible r.selector wt :: tEvs)
      else
        (some ⟨ShotKind.element, o⟩,
          Event.waitForVisible r.selector wt :: (tEvs ++ [Event.elementShot o]))

/-- The body of `takeScreenshot`'s outer `try`: navigate, optionally inject
the transparent-background style, attempt the element screenshot when the
selector is truthy, and otherwise (or on element-path failure) fall back to
a page screenshot. -/
def urlTryBody (url : String) (r : ResolvedUrlOptions) (env : UrlEnv) :
    Except CaptureError Buffer × List Event :=
  if env.gotoFails then
    (Except.error CaptureError.navigationFailed,
      [Event.goto url r.waitUntil r.timeout])
  else
    let stype := if r.transparent then ImgType.png else r.type
    let gEvs := Event.goto url r.waitUntil r.timeout ::
      (if r.transparent then [Event.addStyleTag] else [])
    let pageOpts := shotOptsFor stype r.quality (some r.fullPage) r.transparent
    let pageStep : List Event → Except CaptureError Buffer × List Event :=
      fun evs =>
        if env.pageShotFails then
          (Except.error CaptureError.pageShotFailed, evs)
        else
          (Except.ok ⟨ShotKind.page, pageOpts⟩, evs ++ [Event.pageShot pageOpts])
    if strTruthy r.selector then
      match tryElementShot r stype env with
      | (some buf, evs) => (Except.ok buf, gEvs ++ evs)
      | (none, evs) => pageStep (gEvs ++ evs)
    else
      pageStep gEvs

/-- The `finally` block shared by both capture functions: close page and
context, and close the acquired browser instance when in debug mode and the
instance is not the shared one. -/
def cleanupEvents (headless : Bool) (bi : Nat) (shared : Option Nat) : List Event :=
  Event.closePage :: Event.closeContext ::
    (if headless = false ∧ some bi ≠ shared then [Event.closeBrowser bi] else [])

/-- `takeScreenshot(url, options)` over an engine-outcome environment and
the shared-browser state: returns the result, the updated shared state and
the trace of engine events. Debug-mode logging and fixed waits are not
modelled (they produce no engine event a claim depends on). -/
def takeScreenshot (url : String) (options : ScreenshotRequestOptions)
    (env : UrlEnv) (st : BrowserState) :
    Except CaptureError Buffer × BrowserState × List Event :=
  let r := resolveUrlOptions options
  let g := getBrowser r.headless st
  let body := urlTryBody url r env
  (body.fst, g.snd.fst,
    g.snd.snd ++
      (Event.newContext r.width r.height r.deviceScaleFactor :: Event.newPage ::
        body.snd) ++
      cleanupEvents r.headless g.fst (g.snd.fst).shared)

/-- The body of `takeScreenshotFromHtml`'s `try`: load the synthesized
document via `setContent`, wait for `#review-card` to be visible (an
uncaught failure), then capture that element only. -/
def htmlTryBody (r : ResolvedHtmlOptions) (env : HtmlEnv) :
    Except CaptureError Buffer × List Event :=
  if env.setContentFails then
    (Except.error CaptureError.setContentFailed,
      [Event.setContent WaitUntil.networkidle r.timeout])
  else
    let stype := if r.transparent then ImgType.png else r.type
    let sEvs := [Event.setContent WaitUntil.networkidle r.timeout]
    if env.cardVisibleOk = false then
      (Except.error CaptureError.elementWaitFailed,
        sEvs ++ [Event.waitForVisible "#review-card" r.timeout])
    else
      let o := shotOptsFor stype r.quality none r.transparent
      if env.elementShotFails then
        (Except.error CaptureError.elementShotFailed,
          sEvs ++ [Event.waitForVisible "#review-card" r.timeout])
      else
        (Except.ok ⟨ShotKind.element, o⟩,
          sEvs ++ [Event.waitForVisible "#review-card" r.timeout, Event.elementShot o])

/-- The `HtmlScreenshotRequest` argument. `css` and `state` only feed the
synthesized document text, which no claim inspects; they are carried for
shape. -/
structure HtmlScreenshotRequest where
  html : String
  css : Option Json := none
  state : Option Json := none
  options : Option ScreenshotRequestOptions := none

/-- `takeScreenshotFromHtml(request)` over an engine-outcome environment and
the shared-browser state. -/
def takeScreenshotFromHtml (request : HtmlScreenshotRequest)
    (env : HtmlEnv) (st : BrowserState) :
    Except CaptureError Buffer × BrowserState × List Event :=
  let r := resolveHtmlOptions (request.options.getD {})
  let g := getBrowser r.headless st
  let body := htmlTryBody r env
  (body.fst, g.snd.fst,
    g.snd.snd ++
      (Event.newContext r.width r.height r.deviceScaleFactor :: Event.newPage ::
        body.snd) ++
      cleanupEvents r.headless g.fst (g.snd.fst).shared)

/-- The JSON body of `POST /screenshot` as destructured by the handler:
`const { url, html, css, state, options } = req.body`. `options`, when
present, is the typed options object. -/
structure RequestBody where
  url : Option Json := none
  html : Option Json := none
  css : Option Json := none
  state : Option Json := none
  options : Option ScreenshotRequestOptions := none

/-- `options?.type || "png"` as computed by the handler for the
`Content-Type` header (both branches). -/
def requestedImageType (body : RequestBody) : ImgType :=
  match body.options with
  | none => ImgType.png
  | some o => o.type.getD ImgType.png

/-- `imageType === "jpeg" ? "image/jpeg" : "image/png"`. -/
def contentTypeFor : ImgType → String
  | ImgType.jpeg => "image/jpeg"
  | ImgType.png => "image/png"

/-- Helper for the URL validity model: scans for a `"://"` separator with a
nonempty remainder after it. -/
def hasSchemeSep : List Char → Bool
  | [] => false
  | ':' :: '/' :: '/' :: rest => !rest.isEmpty
  | _ :: rest => hasSchemeSep rest

/-- Models the `new URL(url)` validity check of the WHATWG URL constructor:
a string of shape scheme `"://"` remainder with nonempty scheme and
remainder; non-string inputs coerce to strings without a scheme and are
rejected. No claim depends on the exact accepted set. -/
def isValidUrl : Json → Bool
  | Json.str s =>
    match s.toList with
    | [] => false
    | ':' :: _ => false
    | cs => hasSchemeSep cs
  | _ => false

/-- The string handed to `takeScreenshot` (the validated `url` field). -/
def urlString : Json → String
  | Json.str s => s
  | _ => ""

/-- HTTP responses of the handler: a 200 image response with its
`Content-Type` header and body bytes, or a JSON error body with its status
code, `error` and `message` fields. (`Content-Length` and `Cache-Control`
are set mechanically from the buffer and a constant; no claim inspects
them.) -/
inductive HttpResponse where
  | image (contentType : String) (buffer : Buffer)
  | jsonError (status : Nat) (error : String) (message : String)
deriving DecidableEq

/-- The HTTP status code of a response. -/
def HttpResponse.status : HttpResponse → Nat
  | HttpResponse.image _ _ => 200
  | HttpResponse.jsonError s _ _ => s

/-- The URL-mode tail of the handler: missing/falsy `url` yields 400
"URL or HTML is required", an invalid URL yields 400 "Invalid URL format",
otherwise `takeScreenshot` runs and a thrown error is mapped to 500
"Screenshot failed". -/
def handleUrlBranch (body : RequestBody) (uenv : UrlEnv) (st : BrowserState) :
    HttpResponse × BrowserState :=
  if optTruthy body.url = false then
    (HttpResponse.jsonError 400 "URL or HTML is required"
      "Please provide either a valid URL or HTML string in the request body", st)
  else
    let u := body.url.getD Json.null
    if isValidUrl u = false then
      (HttpResponse.jsonError 400 "Invalid URL format"
        "Please provide a valid URL (e.g., https://example.com)", st)
    else
      let res := takeScreenshot (urlString u) (body.options.getD {}) uenv st
      match res.fst with
      | Except.ok buf =>
        (HttpResponse.image (contentTypeFor (requestedImageType body)) buf,
          res.snd.fst)
      | Except.error e =>
        (HttpResponse.jsonError 500 "Screenshot failed" e.message, res.snd.fst)

/-- `app.post("/screenshot")`: a truthy `html` field takes the HTML branch
(non-string truthy `html` is rejected with 400 "Invalid HTML format");
otherwise the URL branch runs. Capture errors surface as 500
"Screenshot failed" with the engine error's message. -/
def handleScreenshot (body : RequestBody) (uenv : UrlEnv) (henv : HtmlEnv)
    (st : BrowserState) : HttpResponse × BrowserState :=
  if optTruthy body.html then
    match body.html with
    | some (Json.str h) =>
      let req : HtmlScreenshotRequest :=
        { html := h
          css := some ((body.css.filter jsonTruthy).getD (Json.str ""))
          state := some ((body.state.filter jsonTruthy).getD (Json.obj 0))
          options := some (body.options.getD {}) }
      let res := takeScreenshotFromHtml req henv st
      match res.fst with
      | Except.ok buf =>
        (HttpResponse.image (contentTypeFor (requestedImageType body)) buf,
          res.snd.fst)
      | Except.error e =>
        (HttpResponse.jsonError 500 "Screenshot failed" e.message, res.snd.fst)
    | _ =>
      (HttpResponse.jsonError 400 "Invalid HTML format" "HTML must be a string", st)
  else
    handleUrlBranch body uenv st

/-- Modules reachable from the entry file, plus the auth-client config
module `src/config/clerk.ts`; external packages are leaf modules. -/
inductive JsModule where
  | indexMod
  | screenshotMod
  | clerkConfigMod
  | dotenvMod
  | expressMod
  | corsMod
  | playwrightMod
  | clerkBackendMod
deriving DecidableEq

/-- The static `import` lists: the entry module imports dotenv, express,
cors and `./screenshot`; `./screenshot` imports playwright;
`./config/clerk` imports the auth-provider package. Nothing imports
`./config/clerk`. -/
def moduleImports : JsModule → List JsModule
  | JsModule.indexMod =>
    [JsModule.dotenvMod, JsModule.expressMod, JsModule.corsMod, JsModule.screenshotMod]
  | JsModule.screenshotMod => [JsModule.playwrightMod]
  | JsModule.clerkConfigMod => [JsModule.clerkBackendMod]
  | _ => []

/-- Whether a module's own top-level code runs without throwing, given the
set of defined environment variables: only `./config/clerk` checks anything
(it throws when `CLERK_SECRET_KEY` is missing). -/
def moduleTopLevelOk (env : List String) : JsModule → Bool
  | JsModule.clerkConfigMod => env.contains "CLERK_SECRET_KEY"
  | _ => true

/-- Transitive evaluation of a module: loading a module loads its imports
first, then runs its top-level code. The import graph above is acyclic with
depth at most 2, so fuel 3 computes the exact answer. -/
def moduleLoadOkAux (env : List String) : Nat → JsModule → Bool
  | 0, _ => true
  | n + 1, m =>
    (moduleImports m).all (moduleLoadOkAux env n) && moduleTopLevelOk env m

/-- Whether loading a module succeeds under the given environment. -/
def moduleLoadOk (env : List String) (m : JsModule) : Bool :=
  moduleLoadOkAux env 3 m

/-- Transitive import closure of the entry module, computed from
`moduleImports`. -/
def entryTransitiveImports : List JsModule :=
  [JsModule.dotenvMod, JsModule.expressMod, JsModule.corsMod,
    JsModule.screenshotMod, JsModule.playwrightMod]

/-- The server reaches `app.listen` exactly when loading the entry module
succeeds. -/
def serverStarts (env : List String) : Bool :=
  moduleLoadOk env JsModule.indexMod

/-! Concrete inputs used by counterexamples and witnesses. -/

/-- Fresh shared-browser state: no shared instance yet. -/
def initialState : BrowserState := ⟨none, 0⟩

/-- A state with a live shared headless browser of id 5. -/
def runningState : BrowserState := ⟨some 5, 6⟩

/-- URL-mode engine outcomes where every call succeeds. -/
def allOkUrlEnv : UrlEnv := ⟨false, 1, true, true, false, false⟩

/-- HTML-mode engine outcomes where every call succeeds. -/
def allOkHtmlEnv : HtmlEnv := ⟨false, true, false⟩

/-! Theorems settling the claims. -/

/-- C5, counterexample: with an empty environment (no `CLERK_SECRET_KEY`),
loading the auth-client config module fails, yet the server still starts and
listens, because the entry module never imports that config module. -/
theorem claim5_counterexample :
    serverStarts [] = true ∧
    moduleLoadOk [] JsModule.clerkConfigMod = false := by
  decide

/-- C5, amended: the config module `src/config/clerk.ts` does throw on load
exactly when `CLERK_SECRET_KEY` is missing, but it is not in the entry
module's transitive imports, so startup succeeds for every environment. -/
theorem claim5_clerk_not_imported (env : List String) :
    serverStarts env = true ∧
    moduleLoadOk env JsModule.clerkConfigMod = env.contains "CLERK_SECRET_KEY" ∧
    JsModule.clerkConfigMod ∉ entryTransitiveImports := by
  refine ⟨?_, ?_, by decide⟩
  · simp [serverStarts, moduleLoadOk, moduleLoadOkAux, moduleImports, moduleTopLevelOk]
  · simp [moduleLoadOk, moduleLoadOkAux, moduleImports, moduleTopLevelOk]

/-- Helper: any visibility-wait event in the URL-mode try body carries the
selector and the computed selector-wait timeout. -/
theorem urlTryBody_waitForVisible (url : String) (r : ResolvedUrlOptions)
    (env : UrlEnv) (sel : String) (wt : Nat)
    (h : Event.waitForVisible sel wt ∈ (urlTryBody url r env).snd) :
    sel = r.selector ∧ wt = selectorWaitTimeout r.selectorTimeout r.timeout := by
  rcases env with ⟨g, c, w, v, es, ps⟩
  cases g <;> cases w <;> cases v <;> cases es <;> cases ps <;>
    rcases hc : c with _ | c' <;>
    by_cases hsel : strTruthy r.selector <;>
    by_cases htr : r.transparent <;>
    simp_all [urlTryBody, tryElementShot, shotOptsFor]

/-- Helper: the full URL-mode trace decomposes as launch events, context and
page creation, the try-body events, and cleanup events. -/
theorem takeScreenshot_trace (url : String) (options : ScreenshotRequestOptions)
    (env : UrlEnv) (st : BrowserState) :
    (takeScreenshot url options env st).snd.snd =
      (getBrowser (resolveUrlOptions options).headless st).snd.snd ++
        (Event.newContext (resolveUrlOptions options).width
            (resolveUrlOptions options).height
            (resolveUrlOptions options).deviceScaleFactor ::
          Event.newPage :: (urlTryBody url (resolveUrlOptions options) env).snd) ++
        cleanupEvents (resolveUrlOptions options).headless
          (getBrowser (resolveUrlOptions options).headless st).fst
          ((getBrowser (resolveUrlOptions options).headless st).snd.fst).shared := by
  rfl

/-- Helper: launch events never contain a visibility wait. -/
theorem getBrowser_events_shape (headless : Bool) (st : BrowserState) :
    (getBrowser headless st).snd.snd = [] ∨
      ∃ b i, (getBrowser headless st).snd.snd = [Event.launch b i] := by
  cases headless <;> simp [getBrowser]
  cases h : st.shared <;> simp [getBrowser, h]

/-- C8: the URL-mode selector visibility wait uses `selectorTimeout` when
given as a number and `min(timeout, 10000)` otherwise; `timeout` defaults to
30000, so the default selector wait is 10000 ms. -/
theorem claim8_selector_wait_timeout :
    (∀ n t, selectorWaitTimeout (some n) t = n) ∧
    (∀ t, selectorWaitTimeout none t = min t 10000) ∧
    (resolveUrlOptions {}).timeout = 30000 ∧
    selectorWaitTimeout none ((resolveUrlOptions {}).timeout) = 10000 ∧
    (∀ url options env st sel wt,
      Event.waitForVisible sel wt ∈ (takeScreenshot url options env st).snd.snd →
      wt = selectorWaitTimeout (resolveUrlOptions options).selectorTimeout
        (resolveUrlOptions options).timeout) := by
  refine ⟨fun n t => rfl, fun t => rfl, rfl, rfl, ?_⟩
  intro url options env st sel wt h
  rw [takeScreenshot_trace] at h
  simp only [List.mem_append, List.mem_cons] at h
  rcases h with (hl | hm1 | hm2 | hb) | hc
  · rcases getBrowser_events_shape (resolveUrlOptions options).headless st with he | ⟨b, i, he⟩ <;>
      simp [he] at hl
  · simp at hm1
  · simp at hm2
  · exact (urlTryBody_waitForVisible url (resolveUrlOptions options) env sel wt hb).2
  · simp only [cleanupEvents, List.mem_cons] at hc
    rcases hc with hc | hc | hc
    · simp at hc
    · simp at hc
    · split at hc <;> simp at hc

/-- Helper: the result of `takeScreenshot` is the result of its try body
under the resolved options. -/
theorem takeScreenshot_fst (url : String) (options : ScreenshotRequestOptions)
    (env : UrlEnv) (st : BrowserState) :
    (takeScreenshot url options env st).fst =
      (urlTryBody url (resolveUrlOptions options) env).fst := by
  rfl

/-- Helper: the result of `takeScreenshotFromHtml` is the result of its try
body under the resolved options. -/
theorem takeScreenshotFromHtml_fst (request : HtmlScreenshotRequest)
    (env : HtmlEnv) (st : BrowserState) :
    (takeScreenshotFromHtml request env st).fst =
      (htmlTryBody (resolveHtmlOptions (request.options.getD {})) env).fst := by
  rfl

/-- Helper: the HTML-mode trace decomposes like the URL-mode one. -/
theorem takeScreenshotFromHtml_trace (request : HtmlScreenshotRequest)
    (env : HtmlEnv) (st : BrowserState) :
    (takeScreenshotFromHtml request env st).snd.snd =
      (getBrowser (resolveHtmlOptions (request.options.getD {})).headless st).snd.snd ++
        (Event.newContext (resolveHtmlOptions (request.options.getD {})).width
            (resolveHtmlOptions (request.options.getD {})).height
            (resolveHtmlOptions (request.options.getD {})).deviceScaleFactor ::
          Event.newPage ::
            (htmlTryBody (resolveHtmlOptions (request.options.getD {})) env).snd) ++
        cleanupEvents (resolveHtmlOptions (request.options.getD {})).headless
          (getBrowser (resolveHtmlOptions (request.options.getD {})).headless st).fst
          ((getBrowser (resolveHtmlOptions (request.options.getD {})).headless st).snd.fst).shared := by
  rfl

/-- Helper: a successful URL-mode try body returns bytes whose encoding is
png when transparent, else the requested type. -/
theorem urlTryBody_ok_stype (url : String) (r : ResolvedUrlOptions)
    (env : UrlEnv) (buf : Buffer)
    (h : (urlTryBody url r env).fst = Except.ok buf) :
    buf.opts.stype = if r.transparent then ImgType.png else r.type := by
  rcases env with ⟨g, c, w, v, es, ps⟩
  cases g <;> cases w <;> cases v <;> cases es <;> cases ps <;>
    rcases hc : c with _ | c' <;>
    by_cases hsel : strTruthy r.selector <;>
    by_cases htr : r.transparent <;>
    simp_all [urlTryBody, tryElementShot, shotOptsFor] <;>
    rw [← h]

/-- Helper: a successful HTML-mode try body returns bytes whose encoding is
png when transparent, else the requested type. -/
theorem htmlTryBody_ok_stype (r : ResolvedHtmlOptions) (env : HtmlEnv)
    (buf : Buffer)
    (h : (htmlTryBody r env).fst = Except.ok buf) :
    buf.opts.stype = if r.transparent then ImgType.png else r.type := by
  rcases env with ⟨sc, cv, es⟩
  cases sc <;> cases cv <;> cases es <;>
    by_cases htr : r.transparent <;>
    simp_all [htmlTryBody, shotOptsFor] <;>
    rw [← h]

/-- Helper: the URL-mode try body never closes a browser. -/
theorem urlTryBody_no_closeBrowser (url : String) (r : ResolvedUrlOptions)
    (env : UrlEnv) (i : Nat) :
    Event.closeBrowser i ∉ (urlTryBody url r env).snd := by
  rcases env with ⟨g, c, w, v, es, ps⟩
  cases g <;> cases w <;> cases v <;> cases es <;> cases ps <;>
    rcases hc : c with _ | c' <;>
    by_cases hsel : strTruthy r.selector <;>
    by_cases htr : r.transparent <;>
    simp_all [urlTryBody, tryElementShot, shotOptsFor]

/-- Helper: the HTML-mode try body never closes a browser. -/
theorem htmlTryBody_no_closeBrowser (r : ResolvedHtmlOptions) (env : HtmlEnv)
    (i : Nat) :
    Event.closeBrowser i ∉ (htmlTryBody r env).snd := by
  rcases env with ⟨sc, cv, es⟩
  cases sc <;> cases cv <;> cases es <;>
    by_cases htr : r.transparent <;>
    simp_all [htmlTryBody, shotOptsFor]

/-- Helper: when navigation and the page screenshot succeed, the selector is
truthy, and any step of the element path fails, the URL-mode try body
returns the page-level buffer (viewport or full page per `fullPage`). -/
theorem urlTryBody_fallback (url : String) (r : ResolvedUrlOptions)
    (env : UrlEnv)
    (hgoto : env.gotoFails = false)
    (hpage : env.pageShotFails = false)
    (hsel : strTruthy r.selector = true)
    (hfail : env.elementCount = 0 ∨ env.waitVisibleOk = false ∨
      env.stillVisible = false ∨ env.elementShotFails = true) :
    (urlTryBody url r env).fst =
      Except.ok ⟨ShotKind.page,
        shotOptsFor (if r.transparent then ImgType.png else r.type)
          r.quality (some r.fullPage) r.transparent⟩ := by
  rcases env with ⟨g, c, w, v, es, ps⟩
  simp only at hgoto hpage hfail
  subst hgoto hpage
  rcases hc : c with _ | c' <;>
    cases w <;> cases v <;> cases es <;>
    simp_all [urlTryBody, tryElementShot, shotOptsFor, hsel]

/-- Helper: every screenshot call in the URL-mode try body uses the
transparent-forced type and forwards quality only for jpeg. -/
theorem urlTryBody_shot_opts (url : String) (r : ResolvedUrlOptions)
    (env : UrlEnv) (o : ShotOpts)
    (h : Event.elementShot o ∈ (urlTryBody url r env).snd ∨
      Event.pageShot o ∈ (urlTryBody url r env).snd) :
    o.stype = (if r.transparent then ImgType.png else r.type) ∧
    o.quality = (if o.stype = ImgType.jpeg then some r.quality else none) := by
  rcases env with ⟨g, c, w, v, es, ps⟩
  cases g <;> cases w <;> cases v <;> cases es <;> cases ps <;>
    rcases hc : c with _ | c' <;>
    by_cases hsel : strTruthy r.selector <;>
    by_cases htr : r.transparent <;>
    simp_all [urlTryBody, tryElementShot, shotOptsFor]

/-- Helper: every screenshot call in the HTML-mode try body uses the
transparent-forced type and forwards quality only for jpeg. -/
theorem htmlTryBody_shot_opts (r : ResolvedHtmlOptions) (env : HtmlEnv)
    (o : ShotOpts)
    (h : Event.elementShot o ∈ (htmlTryBody r env).snd ∨
      Event.pageShot o ∈ (htmlTryBody r env).snd) :
    o.stype = (if r.transparent then ImgType.png else r.type) ∧
    o.quality = (if o.stype = ImgType.jpeg then some r.quality else none) := by
  rcases env with ⟨sc, cv, es⟩
  cases sc <;> cases cv <;> cases es <;>
    by_cases htr : r.transparent <;>
    simp_all [htmlTryBody, shotOptsFor]

/-- Helper: an event that is not a launch, context, page or close event
occurs in a capture trace exactly when it occurs in the try-body events. -/
theorem mem_capture_trace (headless : Bool) (st : BrowserState)
    (w hgt sc bi : Nat) (sh : Option Nat) (mid : List Event) (e : Event)
    (h1 : ∀ b i, e ≠ Event.launch b i)
    (h2 : ∀ a b c, e ≠ Event.newContext a b c)
    (h3 : e ≠ Event.newPage)
    (h4 : e ≠ Event.closePage)
    (h5 : e ≠ Event.closeContext)
    (h6 : ∀ i, e ≠ Event.closeBrowser i) :
    (e ∈ (getBrowser headless st).snd.snd ++
        (Event.newContext w hgt sc :: Event.newPage :: mid) ++
        cleanupEvents headless bi sh) ↔ e ∈ mid := by
  rcases getBrowser_events_shape headless st with he | ⟨b, i, he⟩ <;>
    simp [he, cleanupEvents, h1, h2, h3, h4, h5, h6]

/-- Helper: element-screenshot events in a capture trace come from the try
body. -/
theorem elementShot_mem_capture_trace (headless : Bool) (st : BrowserState)
    (w hgt sc bi : Nat) (sh : Option Nat) (mid : List Event) (o : ShotOpts) :
    (Event.elementShot o ∈ (getBrowser headless st).snd.snd ++
        (Event.newContext w hgt sc :: Event.newPage :: mid) ++
        cleanupEvents headless bi sh) ↔ Event.elementShot o ∈ mid :=
  mem_capture_trace headless st w hgt sc bi sh mid _
    (by simp) (by simp) (by simp) (by simp) (by simp) (by simp)

/-- Helper: page-screenshot events in a capture trace come from the try
body. -/
theorem pageShot_mem_capture_trace (headless : Bool) (st : BrowserState)
    (w hgt sc bi : Nat) (sh : Option Nat) (mid : List Event) (o : ShotOpts) :
    (Event.pageShot o ∈ (getBrowser headless st).snd.snd ++
        (Event.newContext w hgt sc :: Event.newPage :: mid) ++
        cleanupEvents headless bi sh) ↔ Event.pageShot o ∈ mid :=
  mem_capture_trace headless st w hgt sc bi sh mid _
    (by simp) (by simp) (by simp) (by simp) (by simp) (by simp)

/-- C7: in both URL and HTML mode, every screenshot handed to the engine is
png whenever the resolved `transparent` is true, and otherwise uses the
requested type (which defaults to png); the jpeg `quality` value is
forwarded exactly when the effective type is jpeg. -/
theorem claim7_effective_type_and_quality :
    (∀ url options env st o,
      (Event.elementShot o ∈ (takeScreenshot url options env st).snd.snd ∨
        Event.pageShot o ∈ (takeScreenshot url options env st).snd.snd) →
      o.stype = (if (resolveUrlOptions options).transparent then ImgType.png
        else (resolveUrlOptions options).type) ∧
      o.quality = (if o.stype = ImgType.jpeg
        then some (resolveUrlOptions options).quality else none)) ∧
    (∀ request env st o,
      (Event.elementShot o ∈ (takeScreenshotFromHtml request env st).snd.snd ∨
        Event.pageShot o ∈ (takeScreenshotFromHtml request env st).snd.snd) →
      o.stype = (if (resolveHtmlOptions (request.options.getD {})).transparent
        then ImgType.png else (resolveHtmlOptions (request.options.getD {})).type) ∧
      o.quality = (if o.stype = ImgType.jpeg
        then some (resolveHtmlOptions (request.options.getD {})).quality else none)) ∧
    (resolveUrlOptions {}).type = ImgType.png ∧
    (resolveUrlOptions {}).transparent = true ∧
    (resolveHtmlOptions {}).type = ImgType.png ∧
    (resolveHtmlOptions {}).transparent = true := by
  refine ⟨?_, ?_, rfl, rfl, rfl, rfl⟩
  · intro url options env st o h
    apply urlTryBody_shot_opts url (resolveUrlOptions options) env o
    rw [takeScreenshot_trace] at h
    rcases h with h | h
    · exact Or.inl ((elementShot_mem_capture_trace _ _ _ _ _ _ _ _ _).mp h)
    · exact Or.inr ((pageShot_mem_capture_trace _ _ _ _ _ _ _ _ _).mp h)
  · intro request env st o h
    apply htmlTryBody_shot_opts (resolveHtmlOptions (request.options.getD {})) env o
    rw [takeScreenshotFromHtml_trace] at h
    rcases h with h | h
    · exact Or.inl ((elementShot_mem_capture_trace _ _ _ _ _ _ _ _ _).mp h)
    · exact Or.inr ((pageShot_mem_capture_trace _ _ _ _ _ _ _ _ _).mp h)

/-- Helper: the HTML-mode try body never takes a page-level screenshot. -/
theorem htmlTryBody_no_pageShot (r : ResolvedHtmlOptions) (env : HtmlEnv)
    (o : ShotOpts) :
    Event.pageShot o ∉ (htmlTryBody r env).snd := by
  rcases env with ⟨sc, cv, es⟩
  cases sc <;> cases cv <;> cases es <;> simp [htmlTryBody, shotOptsFor]

/-- C2: in HTML mode, when the document loads but `#review-card` never
becomes visible within the timeout, `takeScreenshotFromHtml` throws the
visibility-wait error, no page-level fallback capture happens, and the
handler answers 500 with error "Screenshot failed" for any request whose
`html` field is a truthy string. -/
theorem claim2_html_card_missing_500 (request : HtmlScreenshotRequest)
    (henv : HtmlEnv) (st : BrowserState)
    (hset : henv.setContentFails = false)
    (hvis : henv.cardVisibleOk = false) :
    (takeScreenshotFromHtml request henv st).fst =
      Except.error CaptureError.elementWaitFailed ∧
    (∀ o, Event.pageShot o ∉ (takeScreenshotFromHtml request henv st).snd.snd) ∧
    (∀ body uenv st2 s, body.html = some (Json.str s) → strTruthy s = true →
      (handleScreenshot body uenv henv st2).fst =
        HttpResponse.jsonError 500 "Screenshot failed"
          CaptureError.elementWaitFailed.message) := by
  have h2 : ∀ (req : HtmlScreenshotRequest) (st2 : BrowserState),
      (takeScreenshotFromHtml req henv st2).fst =
        Except.error CaptureError.elementWaitFailed := by
    intro req st2
    rw [takeScreenshotFromHtml_fst]
    simp [htmlTryBody, hset, hvis]
  refine ⟨h2 request st, ?_, ?_⟩
  · intro o
    rw [takeScreenshotFromHtml_trace, pageShot_mem_capture_trace]
    exact htmlTryBody_no_pageShot _ henv o
  · intro body uenv st2 s hs htr
    have hopt : optTruthy (some (Json.str s)) = true := by
      simpa [optTruthy, jsonTruthy, strTruthy] using htr
    simp [handleScreenshot, hs, hopt, h2]

/-- C3: in URL mode, when navigation and the page screenshot succeed, the
selector is configured, and the element path fails for any reason (absent
from the DOM, visibility wait timeout, no longer visible, or a failing
element screenshot), `takeScreenshot` returns the page-level buffer
(viewport or full page per `fullPage`) instead of propagating the failure,
and the handler still answers 200. -/
theorem claim3_url_selector_fallback (url : String)
    (options : ScreenshotRequestOptions) (uenv : UrlEnv) (st : BrowserState)
    (hgoto : uenv.gotoFails = false)
    (hpage : uenv.pageShotFails = false)
    (hsel : strTruthy (resolveUrlOptions options).selector = true)
    (hfail : uenv.elementCount = 0 ∨ uenv.waitVisibleOk = false ∨
      uenv.stillVisible = false ∨ uenv.elementShotFails = true) :
    (takeScreenshot url options uenv st).fst =
      Except.ok ⟨ShotKind.page,
        shotOptsFor (if (resolveUrlOptions options).transparent then ImgType.png
            else (resolveUrlOptions options).type)
          (resolveUrlOptions options).quality
          (some (resolveUrlOptions options).fullPage)
          (resolveUrlOptions options).transparent⟩ ∧
    (∀ body henv st2,
      optTruthy body.html = false →
      optTruthy body.url = true →
      isValidUrl (body.url.getD Json.null) = true →
      strTruthy (resolveUrlOptions (body.options.getD {})).selector = true →
      ((handleScreenshot body uenv henv st2).fst).status = 200) := by
  constructor
  · rw [takeScreenshot_fst]
    exact urlTryBody_fallback url _ uenv hgoto hpage hsel hfail
  · intro body henv st2 hh hu hv hsel2
    have hok : (takeScreenshot (urlString (body.url.getD Json.null))
        (body.options.getD {}) uenv st2).fst =
        Except.ok ⟨ShotKind.page,
          shotOptsFor
            (if (resolveUrlOptions (body.options.getD {})).transparent
              then ImgType.png else (resolveUrlOptions (body.options.getD {})).type)
            (resolveUrlOptions (body.options.getD {})).quality
            (some (resolveUrlOptions (body.options.getD {})).fullPage)
            (resolveUrlOptions (body.options.getD {})).transparent⟩ := by
      rw [takeScreenshot_fst]
      exact urlTryBody_fallback _ _ uenv hgoto hpage hsel2 hfail
    simp [handleScreenshot, handleUrlBranch, hh, hu, hv, hok, HttpResponse.status]

/-! Concrete request bodies and environments for witnesses and
counterexamples. -/

/-- A body carrying only a valid URL. -/
def urlOnlyBody : RequestBody := { url := some (Json.str "https://example.com") }

/-- URL-mode outcomes where the selector does not exist in the DOM but all
page-level operations succeed. -/
def missingSelectorEnv : UrlEnv := ⟨false, 0, true, true, false, false⟩

/-- An HTML-mode request whose document never shows `#review-card`. -/
def noCardRequest : HtmlScreenshotRequest := { html := "<p>no card</p>" }

/-- A body carrying that HTML snippet. -/
def noCardBody : RequestBody := { html := some (Json.str "<p>no card</p>") }

/-- HTML-mode outcomes where the document loads but `#review-card` never
becomes visible. -/
def noCardEnv : HtmlEnv := ⟨false, false, false⟩

/-- Witness for C2 at a concrete request: the capture throws and the
endpoint answers 500 "Screenshot failed". -/
theorem claim2_witness :
    (takeScreenshotFromHtml noCardRequest noCardEnv initialState).fst =
      Except.error CaptureError.elementWaitFailed ∧
    (handleScreenshot noCardBody allOkUrlEnv noCardEnv initialState).fst =
      HttpResponse.jsonError 500 "Screenshot failed"
        CaptureError.elementWaitFailed.message := by
  have h := claim2_html_card_missing_500 noCardRequest noCardEnv initialState rfl rfl
  exact ⟨h.1, h.2.2 noCardBody allOkUrlEnv initialState "<p>no card</p>" rfl (by decide)⟩

/-- Witness for C3 at a concrete request: selector `#review-card` missing
from the DOM, yet the response status is 200. -/
theorem claim3_witness :
    ((handleScreenshot urlOnlyBody missingSelectorEnv allOkHtmlEnv
      initialState).fst).status = 200 :=
  (claim3_url_selector_fallback "https://example.com" {} missingSelectorEnv
      initialState rfl rfl (by decide) (Or.inl rfl)).2
    urlOnlyBody allOkHtmlEnv initialState (by decide) (by decide) (by decide)
    (by decide)

/-- Witness for C8 at a concrete request: with no `selectorTimeout` and the
default 30000 ms `timeout`, the observed wait event uses 10000 ms. -/
theorem claim8_witness :
    (10000 : Nat) = selectorWaitTimeout (resolveUrlOptions {}).selectorTimeout
      (resolveUrlOptions {}).timeout :=
  claim8_selector_wait_timeout.2.2.2.2 "https://example.com" {} allOkUrlEnv
    initialState "#review-card" 10000 (by decide)

/-- A body whose `html` field is the falsy non-string `0`. -/
def falsyNonStringHtmlBody : RequestBody := { html := some (Json.num 0) }

/-- A body whose `html` field is the truthy non-string `42`. -/
def truthyNonStringHtmlBody : RequestBody := { html := some (Json.num 42) }

/-- A body whose `html` field is the falsy string `""`. -/
def falsyHtmlStringBody : RequestBody := { html := some (Json.str "") }

/-- C4, counterexample: `html = 0` is present and not a string, yet the
response is 400 "URL or HTML is required", not 400 "Invalid HTML format",
because the handler tests `html` for truthiness before checking its type. -/
theorem claim4_counterexample :
    jsonIsString (Json.num 0) = false ∧
    (handleScreenshot falsyNonStringHtmlBody allOkUrlEnv allOkHtmlEnv
        initialState).fst =
      HttpResponse.jsonError 400 "URL or HTML is required"
        "Please provide either a valid URL or HTML string in the request body" ∧
    (handleScreenshot falsyNonStringHtmlBody allOkUrlEnv allOkHtmlEnv
        initialState).fst ≠
      HttpResponse.jsonError 400 "Invalid HTML format" "HTML must be a string" := by
  refine ⟨rfl, by decide, by decide⟩

/-- C4, amended: for every request whose `html` field is truthy and not a
string, the response is 400 with error "Invalid HTML format". -/
theorem claim4_truthy_nonstring_400 (body : RequestBody) (uenv : UrlEnv)
    (henv : HtmlEnv) (st : BrowserState)
    (ht : optTruthy body.html = true)
    (hs : jsonIsString (body.html.getD Json.null) = false) :
    (handleScreenshot body uenv henv st).fst =
      HttpResponse.jsonError 400 "Invalid HTML format" "HTML must be a string" := by
  rcases hh : body.html with _ | j
  · rw [hh] at ht
    simp [optTruthy] at ht
  · rw [hh] at ht hs
    cases j <;> simp_all [handleScreenshot, optTruthy, jsonIsString]

/-- Witness for the amended C4 at `html = 42`. -/
theorem claim4_witness :
    (handleScreenshot truthyNonStringHtmlBody allOkUrlEnv allOkHtmlEnv
        initialState).fst =
      HttpResponse.jsonError 400 "Invalid HTML format" "HTML must be a string" :=
  claim4_truthy_nonstring_400 truthyNonStringHtmlBody allOkUrlEnv allOkHtmlEnv
    initialState (by decide) (by decide)

/-- C10: a falsy `html` field (absent, `""`, `0`, `false` or `null`) skips
the HTML branch entirely: the handler behaves exactly as the URL branch, can
never answer "Invalid HTML format", and answers 400
"URL or HTML is required" when `url` is falsy too. -/
theorem claim10_falsy_html_url_branch (body : RequestBody) (uenv : UrlEnv)
    (henv : HtmlEnv) (st : BrowserState)
    (hf : optTruthy body.html = false) :
    handleScreenshot body uenv henv st = handleUrlBranch body uenv st ∧
    (∀ m, (handleScreenshot body uenv henv st).fst ≠
      HttpResponse.jsonError 400 "Invalid HTML format" m) ∧
    (optTruthy body.url = false →
      (handleScreenshot body uenv henv st).fst =
        HttpResponse.jsonError 400 "URL or HTML is required"
          "Please provide either a valid URL or HTML string in the request body") := by
  have h1 : handleScreenshot body uenv henv st = handleUrlBranch body uenv st := by
    simp [handleScreenshot, hf]
  refine ⟨h1, ?_, ?_⟩
  · intro m
    rw [h1]
    unfold handleUrlBranch
    by_cases hu : optTruthy body.url = false
    · simp [hu]
    · by_cases hv : isValidUrl (body.url.getD Json.null) = false
      · simp [hu, hv]
      · simp only [hu, hv, if_neg, ite_false]
        rcases hres : (takeScreenshot (urlString (body.url.getD Json.null))
            (body.options.getD {}) uenv st).fst with buf | e <;>
          simp [hres]
  · intro hu
    rw [h1]
    simp [handleUrlBranch, hu]

/-- Witness for C10 at `html = ""` (falsy but present) and no `url`. -/
theorem claim10_witness :
    (handleScreenshot falsyHtmlStringBody allOkUrlEnv allOkHtmlEnv
        initialState).fst =
      HttpResponse.jsonError 400 "URL or HTML is required"
        "Please provide either a valid URL or HTML string in the request body" :=
  (claim10_falsy_html_url_branch falsyHtmlStringBody allOkUrlEnv allOkHtmlEnv
    initialState (by decide)).2.2 (by decide)

/-- Helper: the requested image type equals the `type` field of the options
object the handler forwards to the capture functions (default png). -/
theorem requestedImageType_eq (body : RequestBody) :
    requestedImageType body = (body.options.getD {}).type.getD ImgType.png := by
  cases hb : body.options <;> simp [requestedImageType, hb]

/-- Helper: a successful `takeScreenshot` returns bytes whose encoding is
forced to png by `transparent`, else the requested type. -/
theorem takeScreenshot_ok_stype (url : String)
    (options : ScreenshotRequestOptions) (env : UrlEnv) (st : BrowserState)
    (buf : Buffer)
    (h : (takeScreenshot url options env st).fst = Except.ok buf) :
    buf.opts.stype = if (resolveUrlOptions options).transparent then ImgType.png
      else (resolveUrlOptions options).type :=
  urlTryBody_ok_stype url _ env buf ((takeScreenshot_fst url options env st) ▸ h)

/-- Helper: a successful `takeScreenshotFromHtml` returns bytes whose
encoding is forced to png by `transparent`, else the requested type. -/
theorem takeScreenshotFromHtml_ok_stype (request : HtmlScreenshotRequest)
    (env : HtmlEnv) (st : BrowserState) (buf : Buffer)
    (h : (takeScreenshotFromHtml request env st).fst = Except.ok buf) :
    buf.opts.stype =
      if (resolveHtmlOptions (request.options.getD {})).transparent then ImgType.png
      else (resolveHtmlOptions (request.options.getD {})).type :=
  htmlTryBody_ok_stype _ env buf ((takeScreenshotFromHtml_fst request env st) ▸ h)

/-- C1, amended: on every successful response the `Content-Type` header is
derived from the requested `type` option alone (`image/jpeg` iff jpeg was
requested), while the bytes' effective encoding is forced to png whenever
the resolved `transparent` (default true) is true; the header matches the
effective encoding exactly when transparent is false or jpeg was not
requested. -/
theorem claim1_contentType_requested (body : RequestBody) (uenv : UrlEnv)
    (henv : HtmlEnv) (st : BrowserState) (ct : String) (buf : Buffer)
    (h : (handleScreenshot body uenv henv st).fst = HttpResponse.image ct buf) :
    ct = contentTypeFor (requestedImageType body) ∧
    buf.effectiveType =
      (if (body.options.getD {}).transparent.getD true then ImgType.png
        else requestedImageType body) ∧
    (ct = contentTypeFor buf.effectiveType ↔
      ¬((body.options.getD {}).transparent.getD true = true ∧
        requestedImageType body = ImgType.jpeg)) := by
  have key : ct = contentTypeFor (requestedImageType body) ∧
      buf.effectiveType =
        (if (body.options.getD {}).transparent.getD true then ImgType.png
          else requestedImageType body) := by
    cases hh : optTruthy body.html with
    | false =>
      have h1 : handleScreenshot body uenv henv st = handleUrlBranch body uenv st := by
        simp [handleScreenshot, hh]
      rw [h1] at h
      unfold handleUrlBranch at h
      cases hu : optTruthy body.url with
      | false => simp [hu] at h
      | true =>
        cases hv : isValidUrl (body.url.getD Json.null) with
        | false => simp [hu, hv] at h
        | true =>
          rcases hres : (takeScreenshot (urlString (body.url.getD Json.null))
              (body.options.getD {}) uenv st).fst with e | buf2
          · simp [hu, hv, hres] at h
          · simp only [hu, hv, hres, Bool.true_eq_false, Bool.false_eq_true,
              if_false, ite_false, HttpResponse.image.injEq] at h
            have hstype := takeScreenshot_ok_stype _ _ uenv st buf2 hres
            refine ⟨h.1.symm, ?_⟩
            rw [← h.2, Buffer.effectiveType, hstype, requestedImageType_eq]
            simp [resolveUrlOptions]
    | true =>
      rcases hhtml : body.html with _ | j
      · rw [hhtml] at hh
        simp [optTruthy] at hh
      · rw [hhtml] at hh
        cases j with
        | str s =>
          simp only [handleScreenshot, hhtml, hh, if_pos] at h
          rcases hres : (takeScreenshotFromHtml
              { html := s
                css := some ((Option.filter jsonTruthy body.css).getD (Json.str ""))
                state := some ((Option.filter jsonTruthy body.state).getD (Json.obj 0))
                options := some (body.options.getD {}) } henv st).fst with e | buf2
          · rw [hres] at h
            simp at h
          · rw [hres] at h
            simp only [HttpResponse.image.injEq] at h
            have hstype := takeScreenshotFromHtml_ok_stype _ henv st buf2 hres
            refine ⟨h.1.symm, ?_⟩
            rw [← h.2, Buffer.effectiveType, hstype, requestedImageType_eq]
            simp [resolveHtmlOptions]
        | null => simp [handleScreenshot, hhtml, hh] at h
        | bool b => simp [handleScreenshot, hhtml, hh] at h
        | num n => simp [handleScreenshot, hhtml, hh] at h
        | arr k => simp [handleScreenshot, hhtml, hh] at h
        | obj k => simp [handleScreenshot, hhtml, hh] at h
  refine ⟨key.1, key.2, ?_⟩
  rw [key.1, key.2]
  cases hq : requestedImageType body <;>
    cases htr : (body.options.getD {}).transparent.getD true <;>
    simp [contentTypeFor]

/-- The buffer produced by a default transparent element capture. -/
def elementPngBuffer : Buffer := ⟨ShotKind.element, ⟨ImgType.png, none, none, some true⟩⟩

/-- A body requesting `type: "jpeg"` with `transparent` left at its default
(true). -/
def jpegRequestBody : RequestBody :=
  { html := some (Json.str "<div>hi</div>")
    options := some { type := some ImgType.jpeg } }

/-- C1, counterexample: requesting jpeg with default `transparent` yields a
200 whose `Content-Type` is `image/jpeg` while the returned bytes are png —
the header does not match the effective type of the bytes. -/
theorem claim1_counterexample :
    (handleScreenshot jpegRequestBody allOkUrlEnv allOkHtmlEnv
        initialState).fst = HttpResponse.image "image/jpeg" elementPngBuffer ∧
    elementPngBuffer.effectiveType = ImgType.png ∧
    contentTypeFor elementPngBuffer.effectiveType ≠ "image/jpeg" := by
  refine ⟨by decide, rfl, by decide⟩

/-- Witness for the amended C1 at the same concrete request. -/
theorem claim1_witness :
    "image/jpeg" = contentTypeFor (requestedImageType jpegRequestBody) ∧
    elementPngBuffer.effectiveType =
      (if (jpegRequestBody.options.getD {}).transparent.getD true then ImgType.png
        else requestedImageType jpegRequestBody) ∧
    ("image/jpeg" = contentTypeFor elementPngBuffer.effectiveType ↔
      ¬((jpegRequestBody.options.getD {}).transparent.getD true = true ∧
        requestedImageType jpegRequestBody = ImgType.jpeg)) :=
  claim1_contentType_requested jpegRequestBody allOkUrlEnv allOkHtmlEnv
    initialState "image/jpeg" elementPngBuffer (by decide)

/-- Helper: the shared-browser state returned by `takeScreenshot` is the one
produced by browser acquisition. -/
theorem takeScreenshot_state (url : String) (options : ScreenshotRequestOptions)
    (env : UrlEnv) (st : BrowserState) :
    (takeScreenshot url options env st).snd.fst =
      (getBrowser (resolveUrlOptions options).headless st).snd.fst := by
  rfl

/-- Helper: the shared-browser state returned by `takeScreenshotFromHtml` is
the one produced by browser acquisition. -/
theorem takeScreenshotFromHtml_state (request : HtmlScreenshotRequest)
    (env : HtmlEnv) (st : BrowserState) :
    (takeScreenshotFromHtml request env st).snd.fst =
      (getBrowser (resolveHtmlOptions (request.options.getD {})).headless st).snd.fst := by
  rfl

/-- Helper: a live shared browser instance is never closed by a URL-mode
request. -/
theorem takeScreenshot_no_close_shared (url : String)
    (options : ScreenshotRequestOptions) (env : UrlEnv) (st : BrowserState)
    (b : Nat) (hb : st.shared = some b) :
    Event.closeBrowser b ∉ (takeScreenshot url options env st).snd.snd := by
  intro hmem
  rw [takeScreenshot_trace] at hmem
  simp only [List.mem_append, List.mem_cons] at hmem
  rcases hmem with (hl | h1 | h2 | hb2) | hc
  · rcases getBrowser_events_shape (resolveUrlOptions options).headless st with he | ⟨b2, i, he⟩ <;>
      simp [he] at hl
  · simp at h1
  · simp at h2
  · exact urlTryBody_no_closeBrowser url _ env b hb2
  · cases hH : (resolveUrlOptions options).headless <;>
      rw [hH] at hc <;>
      simp only [cleanupEvents, getBrowser, hb, List.mem_cons] at hc <;>
      rcases hc with hc | hc | hc <;>
      try simp at hc
    omega

/-- Helper: a live shared browser instance is never closed by an HTML-mode
request. -/
theorem takeScreenshotFromHtml_no_close_shared (request : HtmlScreenshotRequest)
    (env : HtmlEnv) (st : BrowserState) (b : Nat) (hb : st.shared = some b) :
    Event.closeBrowser b ∉ (takeScreenshotFromHtml request env st).snd.snd := by
  intro hmem
  rw [takeScreenshotFromHtml_trace] at hmem
  simp only [List.mem_append, List.mem_cons] at hmem
  rcases hmem with (hl | h1 | h2 | hb2) | hc
  · rcases getBrowser_events_shape (resolveHtmlOptions (request.options.getD {})).headless st with
      he | ⟨b2, i, he⟩ <;> simp [he] at hl
  · simp at h1
  · simp at h2
  · exact htmlTryBody_no_closeBrowser _ env b hb2
  · cases hH : (resolveHtmlOptions (request.options.getD {})).headless <;>
      rw [hH] at hc <;>
      simp only [cleanupEvents, getBrowser, hb, List.mem_cons] at hc <;>
      rcases hc with hc | hc | hc <;>
      try simp at hc
    omega

/-- C6: the shared headless browser handle is an idempotently initialized
singleton: a first headless acquisition creates and stores it, any later
headless acquisition returns the stored handle without launching, a debug
acquisition launches a fresh instance distinct from the stored one and
leaves the store untouched, and neither capture function replaces or closes
a live shared instance. -/
theorem claim6_shared_browser_singleton :
    (∀ st b, st.shared = some b → getBrowser true st = (b, st, [])) ∧
    (∀ st, st.shared = none →
      getBrowser true st =
        (st.nextId, ⟨some st.nextId, st.nextId + 1⟩, [Event.launch true st.nextId])) ∧
    (∀ st, getBrowser false st =
      (st.nextId, ⟨st.shared, st.nextId + 1⟩, [Event.launch false st.nextId])) ∧
    (∀ st b, st.wf = true → st.shared = some b → (getBrowser false st).fst ≠ b) ∧
    (∀ url options env st b, st.shared = some b →
      ((takeScreenshot url options env st).snd.fst).shared = some b) ∧
    (∀ request env st b, st.shared = some b →
      ((takeScreenshotFromHtml request env st).snd.fst).shared = some b) ∧
    (∀ url options env st b, st.shared = some b →
      Event.closeBrowser b ∉ (takeScreenshot url options env st).snd.snd) ∧
    (∀ request env st b, st.shared = some b →
      Event.closeBrowser b ∉ (takeScreenshotFromHtml request env st).snd.snd) := by
  refine ⟨?_, ?_, ?_, ?_, ?_, ?_,
    fun url options env st b hb => takeScreenshot_no_close_shared url options env st b hb,
    fun request env st b hb => takeScreenshotFromHtml_no_close_shared request env st b hb⟩
  · intro st b hb
    simp [getBrowser, hb]
  · intro st hn
    simp [getBrowser, hn]
  · intro st
    simp [getBrowser]
  · intro st b hwf hb
    simp only [BrowserState.wf, hb, decide_eq_true_eq] at hwf
    simp [getBrowser]
    omega
  · intro url options env st b hb
    rw [takeScreenshot_state]
    cases (resolveUrlOptions options).headless <;> simp [getBrowser, hb]
  · intro request env st b hb
    rw [takeScreenshotFromHtml_state]
    cases (resolveHtmlOptions (request.options.getD {})).headless <;> simp [getBrowser, hb]

/-- Options selecting the visible (debug) browser. -/
def debugOptions : ScreenshotRequestOptions := { headless := some false }

/-- Witness for C6 at the concrete running state (shared id 5, next fresh
id 6). -/
theorem claim6_witness :
    getBrowser true runningState = (5, runningState, []) ∧
    (getBrowser false runningState).fst ≠ 5 ∧
    ((takeScreenshot "https://example.com" {} allOkUrlEnv
      runningState).snd.fst).shared = some 5 ∧
    Event.closeBrowser 5 ∉
      (takeScreenshot "https://example.com" debugOptions allOkUrlEnv
        runningState).snd.snd :=
  ⟨claim6_shared_browser_singleton.1 runningState 5 rfl,
    claim6_shared_browser_singleton.2.2.2.1 runningState 5 (by decide) rfl,
    claim6_shared_browser_singleton.2.2.2.2.1 "https://example.com" {}
      allOkUrlEnv runningState 5 rfl,
    claim6_shared_browser_singleton.2.2.2.2.2.2.1 "https://example.com"
      debugOptions allOkUrlEnv runningState 5 rfl⟩

/-- C9: on every exit path of both capture functions the page and context
are closed; a debug-mode request closes the per-request browser instance it
launched; and the shared headless instance is never closed by either
function. -/
theorem claim9_cleanup_on_every_path (url : String)
    (options : ScreenshotRequestOptions) (request : HtmlScreenshotRequest)
    (uenv : UrlEnv) (henv : HtmlEnv) (st : BrowserState) :
    (Event.closePage ∈ (takeScreenshot url options uenv st).snd.snd ∧
      Event.closeContext ∈ (takeScreenshot url options uenv st).snd.snd) ∧
    (Event.closePage ∈ (takeScreenshotFromHtml request henv st).snd.snd ∧
      Event.closeContext ∈ (takeScreenshotFromHtml request henv st).snd.snd) ∧
    ((resolveUrlOptions options).headless = false → st.wf = true →
      Event.closeBrowser st.nextId ∈ (takeScreenshot url options uenv st).snd.snd) ∧
    ((resolveHtmlOptions (request.options.getD {})).headless = false →
      st.wf = true →
      Event.closeBrowser st.nextId ∈
        (takeScreenshotFromHtml request henv st).snd.snd) ∧
    (∀ b, st.shared = some b →
      Event.closeBrowser b ∉ (takeScreenshot url options uenv st).snd.snd) ∧
    (∀ b, st.shared = some b →
      Event.closeBrowser b ∉ (takeScreenshotFromHtml request henv st).snd.snd) := by
  refine ⟨⟨?_, ?_⟩, ⟨?_, ?_⟩, ?_, ?_,
    fun b hb => takeScreenshot_no_close_shared url options uenv st b hb,
    fun b hb => takeScreenshotFromHtml_no_close_shared request henv st b hb⟩
  · rw [takeScreenshot_trace]
    simp [cleanupEvents]
  · rw [takeScreenshot_trace]
    simp [cleanupEvents]
  · rw [takeScreenshotFromHtml_trace]
    simp [cleanupEvents]
  · rw [takeScreenshotFromHtml_trace]
    simp [cleanupEvents]
  · intro hH hwf
    rw [takeScreenshot_trace, hH]
    simp only [List.mem_append]
    right
    simp only [cleanupEvents, getBrowser, List.mem_cons]
    cases hsh : st.shared with
    | none => simp
    | some b =>
      simp only [BrowserState.wf, hsh, decide_eq_true_eq] at hwf
      have hne : st.nextId ≠ b := by omega
      simp [hne]
  · intro hH hwf
    rw [takeScreenshotFromHtml_trace, hH]
    simp only [List.mem_append]
    right
    simp only [cleanupEvents, getBrowser, List.mem_cons]
    cases hsh : st.shared with
    | none => simp
    | some b =>
      simp only [BrowserState.wf, hsh, decide_eq_true_eq] at hwf
      have hne : st.nextId ≠ b := by omega
      simp [hne]

/-- Witness for C9 at concrete requests: cleanup events are present, the
debug instance (id 6) is closed, and the shared instance (id 5) is not. -/
theorem claim9_witness :
    Event.closePage ∈
      (takeScreenshot "https://example.com" {} allOkUrlEnv runningState).snd.snd ∧
    Event.closeBrowser 6 ∈
      (takeScreenshot "https://example.com" debugOptions allOkUrlEnv
        runningState).snd.snd ∧
    Event.closeBrowser 5 ∉
      (takeScreenshot "https://example.com" {} allOkUrlEnv runningState).snd.snd := by
  refine ⟨(claim9_cleanup_on_every_path "https://example.com" {} noCardRequest
      allOkUrlEnv allOkHtmlEnv runningState).1.1, ?_, ?_⟩
  · exact (claim9_cleanup_on_every_path "https://example.com" debugOptions
      noCardRequest allOkUrlEnv allOkHtmlEnv runningState).2.2.1 rfl (by decide)
  · exact (claim9_cleanup_on_every_path "https://example.com" {} noCardRequest
      allOkUrlEnv allOkHtmlEnv runningState).2.2.2.2.1 5 rfl

/-- Witness for C7 at a concrete default request: the element screenshot in
the trace is png with no quality forwarded. -/
theorem claim7_witness :
    (⟨ImgType.png, none, none, some true⟩ : ShotOpts).stype =
      (if (resolveUrlOptions {}).transparent then ImgType.png
        else (resolveUrlOptions {}).type) ∧
    (⟨ImgType.png, none, none, some true⟩ : ShotOpts).quality =
      (if (⟨ImgType.png, none, none, some true⟩ : ShotOpts).stype = ImgType.jpeg
        then some (resolveUrlOptions {}).quality else none) :=
  claim7_effective_type_and_quality.1 "https://example.com" {} allOkUrlEnv
    initialState ⟨ImgType.png, none, none, some true⟩ (Or.inl (by decide))

end ReviewMaker
